import Mathlib

/-!
Shallow embedding of the periodic synchronization logic of the climax-frontend
components: the per-key fetch services (services/api), the fan-out and state
update of WeatherMonitor.fetchWeatherData, the polling state of
AlertsPanel.fetchAlerts and SystemOverview.fetchDashboardData, the interval
lifecycle of the useEffect hooks, and ReportSubmissionForm.handleSubmit.
Fallible remote calls are modelled as already-settled promises of type
Except ErrorKind. Timestamps are natural numbers. The freshness flag on a
snapshot entry is the derived observation "this entry was written by the most
recent cycle"; the source stores only the value.
-/

namespace Climax

/-- Error taxonomy of the design document. The source treats rejection reasons
opaquely (axios errors), so the particular constructor never influences control
flow; it only records why a request rejected. -/
inductive ErrorKind : Type where
  | NetworkUnavailable : ErrorKind
  | Timeout : ErrorKind
  | DecodeError : ErrorKind
  | RemoteRejected : Nat → ErrorKind
  deriving DecidableEq, Repr

/-- Region keys are opaque identifiers. The source uses five city name strings;
they are numbered here: 0 delhi, 1 mumbai, 2 bangalore, 3 chennai, 4 kolkata. -/
abbrev Key : Type := Nat

/-- FetchOutcome of the data model: a fulfilled fetch carrying its value and
timestamp, or a failed fetch carrying a reason and timestamp. -/
inductive FetchOutcome (T : Type) : Type where
  | Success : T → Nat → FetchOutcome T
  | Failure : ErrorKind → Nat → FetchOutcome T
  deriving DecidableEq, Repr

def FetchOutcome.isSuccess {T : Type} : FetchOutcome T → Bool
  | FetchOutcome.Success _ _ => true
  | FetchOutcome.Failure _ _ => false

/-- Snapshot entry: the stored value, the time it was written, and the derived
freshness flag (true exactly when the entry was written by the most recent
cycle). -/
structure Entry (T : Type) : Type where
  value : T
  fetchedAt : Nat
  fresh : Bool
  deriving DecidableEq, Repr

/-- A snapshot is the keyed record held in component state
(weatherData / threatAnalyses), as an association list. -/
abbrev Snapshot (T : Type) : Type := List (Key × Entry T)

/-- The set of per-key outcomes of one fan-out pass. -/
abbrev CycleResult (T : Type) : Type := List (Key × FetchOutcome T)

/-- Association lookup mirroring record access such as weatherData[region]. -/
def lookupKey {α : Type} : List (Key × α) → Key → Option α
  | [], _ => none
  | (k0, a) :: rest, k => if k = k0 then some a else lookupKey rest k

/-- True when every outcome of the cycle is a Success; this is the condition
under which the surrounding Promise.all calls both fulfil. -/
def allSuccess {T : Type} (cycle : CycleResult T) : Bool :=
  cycle.all fun kv => FetchOutcome.isSuccess kv.2

/-- An entry whose freshness flag is cleared, value and timestamp kept. -/
def staleEntry {T : Type} (e : Entry T) : Entry T :=
  ⟨e.value, e.fetchedAt, false⟩

/-- The previous snapshot carried over untouched by a failed cycle: no entry was
written this cycle, so every retained entry is stale. -/
def staleAll {T : Type} : Snapshot T → Snapshot T
  | [] => []
  | (k, e) :: rest => (k, staleEntry e) :: staleAll rest

/-- The record rebuilt from scratch by the forEach loop of fetchWeatherData
(newWeatherData[region] = data): one fresh entry per Success outcome. -/
def freshSnapshot {T : Type} : CycleResult T → Snapshot T
  | [] => []
  | (k, FetchOutcome.Success v t) :: rest => (k, ⟨v, t, true⟩) :: freshSnapshot rest
  | (_, FetchOutcome.Failure _ _) :: rest => freshSnapshot rest

/-- State update of WeatherMonitor.fetchWeatherData for one data kind: when the
whole cycle fulfilled, the component replaces the record wholesale with the
rebuilt one; when any outcome failed, the Promise.all rejected, the catch block
only logged, and the previous record was kept untouched (hence entirely stale
under the derived freshness reading). -/
def fetchWeatherDataMerge {T : Type} (previous : Snapshot T) (cycle : CycleResult T) :
    Snapshot T :=
  if allSuccess cycle then freshSnapshot cycle else staleAll previous

/-- A settled promise is either fulfilled or rejected. -/
def isFulfilled {E A : Type} : Except E A → Bool
  | Except.ok _ => true
  | Except.error _ => false

/-- Promise.all over the settled per-key requests issued by regions.map:
fulfilled with every value when every request fulfilled, rejected with a
rejection reason as soon as any request rejected (fail-fast join). -/
def promiseAll {T : Type} : List (Key × Except ErrorKind T) → Except ErrorKind (List (Key × T))
  | [] => Except.ok []
  | (k, Except.ok v) :: rest =>
      match promiseAll rest with
      | Except.ok l => Except.ok ((k, v) :: l)
      | Except.error e => Except.error e
  | (_, Except.error e) :: _ => Except.error e

/-- True when every per-key request fulfilled. -/
def allOk {T : Type} (rs : List (Key × Except ErrorKind T)) : Bool :=
  rs.all fun kv => isFulfilled kv.2

/-- The fulfilled values in request order. -/
def okValues {T : Type} : List (Key × Except ErrorKind T) → List (Key × T)
  | [] => []
  | (k, Except.ok v) :: rest => (k, v) :: okValues rest
  | (_, Except.error _) :: rest => okValues rest

/-- The coordinator contract as claimed: the fan-out join resolves and delivers
one outcome per requested key, failures included, never aborting the cycle. -/
def cycleDeliversAllOutcomes {T : Type} (rs : List (Key × Except ErrorKind T)) : Prop :=
  ∃ l : List (Key × T), promiseAll rs = Except.ok l ∧ l.length = rs.length

/-- Observable state of the WeatherMonitor component instance. stopped records
that the cleanup of the useEffect ran (clearInterval and unmount); inFlight and
cyclesStarted are ghost counters of invocations of fetchWeatherData that have
not yet finished, and started in total. -/
structure WMState (T U : Type) : Type where
  stopped : Bool
  loading : Bool
  refreshing : Bool
  inFlight : Nat
  cyclesStarted : Nat
  weatherData : Snapshot T
  threatAnalyses : Snapshot U
  deriving DecidableEq, Repr

/-- Events driving one WeatherMonitor instance: an interval fire, a click on the
Refresh button, an invocation of fetchWeatherData finishing with the settled
per-key weather and threat results, and the unmount cleanup. -/
inductive WMEvent (T U : Type) : Type where
  | tick : WMEvent T U
  | refreshClick : WMEvent T U
  | complete : CycleResult T → CycleResult U → WMEvent T U
  | deactivate : WMEvent T U
  deriving DecidableEq, Repr

/-- Entry into fetchWeatherData: setRefreshing(true) runs and a new invocation
is in flight. -/
def startCycle {T U : Type} (s : WMState T U) : WMState T U :=
  { s with refreshing := true, inFlight := s.inFlight + 1,
           cyclesStarted := s.cyclesStarted + 1 }

/-- An invocation of fetchWeatherData finishing. On an unmounted component every
setState call is a no-op (React discards updates to unmounted components), so
only the ghost in-flight counter moves. On a mounted component: when both
Promise.all joins fulfilled, both records are replaced wholesale; otherwise the
catch block only logged and the records stay (stale); the finally block clears
loading and refreshing in either case. -/
def completeCycle {T U : Type} (s : WMState T U) (wres : CycleResult T)
    (tres : CycleResult U) : WMState T U :=
  if s.stopped then
    { s with inFlight := s.inFlight - 1 }
  else if allSuccess wres && allSuccess tres then
    { s with weatherData := freshSnapshot wres,
             threatAnalyses := freshSnapshot tres,
             loading := false, refreshing := false,
             inFlight := s.inFlight - 1 }
  else
    { s with weatherData := staleAll s.weatherData,
             threatAnalyses := staleAll s.threatAnalyses,
             loading := false, refreshing := false,
             inFlight := s.inFlight - 1 }

/-- One step of the instance. A tick invokes fetchWeatherData unconditionally
while mounted (setInterval has no in-flight guard); after clearInterval no tick
fires. The Refresh button is disabled while refreshing, so a click acts only
when no invocation holds the refreshing flag. Unmount sets stopped. -/
def step {T U : Type} (s : WMState T U) : WMEvent T U → WMState T U
  | WMEvent.tick => if s.stopped then s else startCycle s
  | WMEvent.refreshClick => if s.stopped || s.refreshing then s else startCycle s
  | WMEvent.complete wres tres => completeCycle s wres tres
  | WMEvent.deactivate => { s with stopped := true }

/-- Fold a list of events over the instance state. -/
def runEvents {T U : Type} (s : WMState T U) : List (WMEvent T U) → WMState T U
  | [] => s
  | e :: es => runEvents (step s e) es

/-- The state right after mount: the useEffect body calls fetchWeatherData once
(loading still true from useState(true)) and arms the interval. -/
def WMState.activated {T U : Type} : WMState T U :=
  startCycle ⟨false, true, false, 0, 0, [], []⟩

/-- What the presentation sink can observe of the instance: the rendered records
and flags. -/
def sinkView {T U : Type} (s : WMState T U) : Snapshot T × Snapshot U × Bool × Bool :=
  (s.weatherData, s.threatAnalyses, s.loading, s.refreshing)

/-- Observable state of the AlertsPanel component instance. -/
structure APState (A : Type) : Type where
  alerts : List A
  loading : Bool
  generating : Bool
  stopped : Bool
  deriving DecidableEq, Repr

/-- AlertsPanel.fetchAlerts finishing with the settled request: on fulfilment
the alerts are replaced; on rejection only a log happens; the finally block
clears loading either way. setState on an unmounted instance is a no-op. -/
def fetchAlerts {A : Type} (s : APState A) (res : Except ErrorKind (List A)) :
    APState A :=
  if s.stopped then s
  else
    match res with
    | Except.ok data => { s with alerts := data, loading := false }
    | Except.error _ => { s with loading := false }

/-- AlertsPanel.generateTestAlerts finishing: sets generating, awaits the
generate request, refetches alerts on its fulfilment, and clears generating in
the finally block. It never touches loading directly. -/
def generateTestAlerts {A : Type} (s : APState A) (gen : Except ErrorKind Unit)
    (res : Except ErrorKind (List A)) : APState A :=
  if s.stopped then s
  else
    match gen with
    | Except.ok _ => { fetchAlerts s res with generating := false }
    | Except.error _ => { s with generating := false }

/-- Observable state of the SystemOverview component instance. -/
structure SOState (D : Type) : Type where
  dashboardData : Option D
  loading : Bool
  stopped : Bool
  deriving DecidableEq, Repr

/-- SystemOverview.fetchDashboardData finishing: on fulfilment the data is
stored; on rejection only a log happens; the finally block clears loading. -/
def fetchDashboardData {D : Type} (s : SOState D) (res : Except ErrorKind D) :
    SOState D :=
  if s.stopped then s
  else
    match res with
    | Except.ok d => { s with dashboardData := some d, loading := false }
    | Except.error _ => { s with loading := false }

/-- Shape of an axios response: the payload sits in the data field. -/
structure AxiosResponse (T : Type) : Type where
  data : T
  deriving DecidableEq, Repr

/-- weatherService.getWeather awaits api.get and returns response.data with no
try or catch of its own: a rejected request (network failure, the 10s axios
timeout, a decode failure) propagates to the caller unchanged. -/
def getWeather {T : Type} (response : Except ErrorKind (AxiosResponse T)) :
    Except ErrorKind T :=
  match response with
  | Except.ok r => Except.ok r.data
  | Except.error e => Except.error e

/-- alertService.getAlerts has the same shape: await api.get, return
response.data, no error handling. -/
def getAlerts {A : Type} (response : Except ErrorKind (AxiosResponse (List A))) :
    Except ErrorKind (List A) :=
  match response with
  | Except.ok r => Except.ok r.data
  | Except.error e => Except.error e

/-- Trace of one ReportSubmissionForm.handleSubmit call: which callbacks ran and
the final submitting flag. -/
structure SubmitTrace : Type where
  onSubmittedCalled : Bool
  onCloseCalled : Bool
  submitting : Bool
  deriving DecidableEq, Repr

/-- handleSubmit: sets submitting, awaits citizenService.submitReport, calls
onSubmitted only on fulfilment, only logs on rejection, and clears submitting
in the finally block. onClose is never called from handleSubmit. -/
def handleSubmit (res : Except ErrorKind Unit) : SubmitTrace :=
  match res with
  | Except.ok _ => ⟨true, false, false⟩
  | Except.error _ => ⟨false, false, false⟩

theorem lookup_staleAll {T : Type} (S : Snapshot T) (k : Key) :
    lookupKey (staleAll S) k = Option.map staleEntry (lookupKey S k) := by
  induction S with
  | nil => rfl
  | cons p rest ih =>
    obtain ⟨k0, e⟩ := p
    by_cases hk : k = k0
    · simp [staleAll, lookupKey, hk]
    · simp [staleAll, lookupKey, hk, ih]

theorem lookup_freshSnapshot_none {T : Type} (C : CycleResult T) (k : Key)
    (h : k ∉ C.map Prod.fst) :
    lookupKey (freshSnapshot C) k = none := by
  induction C with
  | nil => rfl
  | cons p rest ih =>
    obtain ⟨k0, o⟩ := p
    have hk : k ≠ k0 := by
      intro hkk
      exact h (by simp [hkk])
    have hrest : k ∉ rest.map Prod.fst := by
      intro hm
      exact h (by simp [hm])
    cases o with
    | Success v t => simp [freshSnapshot, lookupKey, hk, ih hrest]
    | Failure r t => simp [freshSnapshot, ih hrest]

theorem allSuccess_false_of_failure {T : Type} (C : CycleResult T) (k : Key)
    (r : ErrorKind) (t : Nat) (h : (k, FetchOutcome.Failure r t) ∈ C) :
    allSuccess C = false := by
  cases hall : allSuccess C
  · rfl
  · have hmem := List.all_eq_true.mp hall _ h
    simp [FetchOutcome.isSuccess] at hmem

theorem step_stopped_frozen {T U : Type} (s : WMState T U) (e : WMEvent T U)
    (h : s.stopped = true) :
    (step s e).stopped = true ∧ sinkView (step s e) = sinkView s := by
  cases e with
  | tick => simp [step, h]
  | refreshClick => simp [step, h]
  | complete w u => simp [step, completeCycle, h, sinkView]
  | deactivate => simp [step, h, sinkView]

/-- C1 counterexample: with key 0 (delhi) fulfilled and key 1 (mumbai) rejected
by timeout, the fan-out join rejects outright — no key receives an outcome and
the cycle is aborted, refuting the claim that every key still receives its own
outcome and that the cycle is never aborted because one key failed. -/
theorem fanout_failfast_cex :
    promiseAll [(0, Except.ok 30), (1, (Except.error ErrorKind.Timeout : Except ErrorKind Nat))] =
      Except.error ErrorKind.Timeout ∧
    ¬ cycleDeliversAllOutcomes
      [(0, Except.ok 30), (1, (Except.error ErrorKind.Timeout : Except ErrorKind Nat))] := by
  constructor
  · rfl
  · intro hclaim
    obtain ⟨l, hl, -⟩ := hclaim
    simp [promiseAll] at hl

/-- C1 amended: the fan-out issues all fetches concurrently but joins them with
fail-fast Promise.all: when every key fulfils, the join fulfils with one value
per requested key in order; when any key fails, the join rejects and no per-key
outcome is produced (the caller catches, logs, and discards the cycle). -/
theorem fanout_promiseAll_semantics {T : Type} (rs : List (Key × Except ErrorKind T)) :
    (allOk rs = true →
      promiseAll rs = Except.ok (okValues rs) ∧ (okValues rs).length = rs.length) ∧
    (allOk rs = false → isFulfilled (promiseAll rs) = false) := by
  induction rs with
  | nil =>
    constructor
    · intro _
      exact ⟨rfl, rfl⟩
    · intro h
      simp [allOk] at h
  | cons p rest ih =>
    obtain ⟨k, r⟩ := p
    cases r with
    | ok v =>
      constructor
      · intro h
        have hrest : allOk rest = true := by
          simpa [allOk, isFulfilled] using h
        obtain ⟨h1, h2⟩ := ih.1 hrest
        simp [promiseAll, okValues, h1, h2]
      · intro h
        have hrest : allOk rest = false := by
          simpa [allOk, isFulfilled] using h
        have h3 := ih.2 hrest
        cases hp : promiseAll rest with
        | ok l =>
          rw [hp] at h3
          simp [isFulfilled] at h3
        | error e => simp [promiseAll, hp, isFulfilled]
    | error e =>
      constructor
      · intro h
        simp [allOk, isFulfilled] at h
      · intro _
        simp [promiseAll, isFulfilled]

theorem fanout_promiseAll_semantics_witness :
    promiseAll ([(0, Except.ok 30), (1, Except.ok 28)] : List (Key × Except ErrorKind Nat)) =
      Except.ok [(0, 30), (1, 28)] :=
  ((fanout_promiseAll_semantics _).1 (by decide)).1

/-- C2: for every previous snapshot and cycle, a key with a Failure outcome in
the cycle keeps its previous value and timestamp with freshness cleared when it
had an entry, and stays absent when it had none. In the source any rejected
fetch makes the surrounding Promise.all reject, the catch block skips the whole
state update, and the previous record is retained untouched, which yields
exactly these two facts (no placeholder is ever synthesized). -/
theorem merge_failing_key_retention {T : Type} (S : Snapshot T) (C : CycleResult T)
    (k : Key) (r : ErrorKind) (t : Nat) (hf : (k, FetchOutcome.Failure r t) ∈ C) :
    (∀ e : Entry T, lookupKey S k = some e →
      lookupKey (fetchWeatherDataMerge S C) k = some (staleEntry e)) ∧
    (lookupKey S k = none → lookupKey (fetchWeatherDataMerge S C) k = none) := by
  have hns := allSuccess_false_of_failure C k r t hf
  constructor
  · intro e he
    simp [fetchWeatherDataMerge, hns, lookup_staleAll, he]
  · intro he
    simp [fetchWeatherDataMerge, hns, lookup_staleAll, he]

theorem merge_failing_key_retention_witness :
    lookupKey (fetchWeatherDataMerge ([(1, ⟨28, 0, true⟩)] : Snapshot Nat)
        ([(1, FetchOutcome.Failure ErrorKind.Timeout 5)] : CycleResult Nat)) 1 =
      some (staleEntry ⟨28, 0, true⟩) :=
  (merge_failing_key_retention _ _ 1 ErrorKind.Timeout 5 (by decide)).1 ⟨28, 0, true⟩ rfl

/-- C3 counterexample: with a previous snapshot holding key 4 (kolkata) and an
all-success cycle covering only key 0 (delhi), the merged snapshot drops key 4
entirely, although the claim requires entries of keys the cycle did not cover
to pass through unchanged. -/
theorem merge_uncovered_key_dropped_cex :
    lookupKey (fetchWeatherDataMerge ([(4, ⟨7, 0, true⟩)] : Snapshot Nat)
        ([(0, FetchOutcome.Success 30 1)] : CycleResult Nat)) 4 = none ∧
    lookupKey ([(4, ⟨7, 0, true⟩)] : Snapshot Nat) 4 = some ⟨7, 0, true⟩ :=
  ⟨rfl, rfl⟩

/-- C3 amended: a key with no outcome in the cycle is dropped whenever the cycle
is all-success, because the record is rebuilt wholesale from the cycle keys
only; it is retained (value and timestamp unchanged, marked stale) only when
the cycle failed and the whole update was skipped. -/
theorem merge_uncovered_key_behavior {T : Type} (S : Snapshot T) (C : CycleResult T)
    (k : Key) (h : k ∉ C.map Prod.fst) :
    lookupKey (fetchWeatherDataMerge S C) k =
      if allSuccess C then none else Option.map staleEntry (lookupKey S k) := by
  cases hall : allSuccess C with
  | true => simp [fetchWeatherDataMerge, hall, lookup_freshSnapshot_none C k h]
  | false => simp [fetchWeatherDataMerge, hall, lookup_staleAll]

theorem merge_uncovered_key_behavior_witness :
    lookupKey (fetchWeatherDataMerge ([(4, ⟨7, 0, true⟩)] : Snapshot Nat)
        ([(0, FetchOutcome.Success 30 1)] : CycleResult Nat)) 4 =
      (if allSuccess ([(0, FetchOutcome.Success 30 1)] : CycleResult Nat) then none
       else Option.map staleEntry (lookupKey ([(4, ⟨7, 0, true⟩)] : Snapshot Nat) 4)) :=
  merge_uncovered_key_behavior _ _ 4 (by decide)

/-- C4: for an all-success cycle the update is idempotent, because the record is
rebuilt from the cycle alone and does not depend on the previous snapshot. -/
theorem merge_idempotent_all_success {T : Type} (S : Snapshot T) (C : CycleResult T)
    (h : allSuccess C = true) :
    fetchWeatherDataMerge (fetchWeatherDataMerge S C) C = fetchWeatherDataMerge S C := by
  simp [fetchWeatherDataMerge, h]

theorem merge_idempotent_all_success_witness :
    fetchWeatherDataMerge
        (fetchWeatherDataMerge ([(0, ⟨29, 0, true⟩)] : Snapshot Nat)
          ([(0, FetchOutcome.Success 30 1)] : CycleResult Nat))
        ([(0, FetchOutcome.Success 30 1)] : CycleResult Nat) =
      fetchWeatherDataMerge ([(0, ⟨29, 0, true⟩)] : Snapshot Nat)
        ([(0, FetchOutcome.Success 30 1)] : CycleResult Nat) :=
  merge_idempotent_all_success _ _ (by decide)

/-- C5 counterexample: right after mount one cycle is in flight; an interval
tick in that state starts a second concurrent cycle (two invocations of
fetchWeatherData in flight), refuting the claim that a tick firing while a
cycle is in flight is dropped and at most one cycle is ever in flight. -/
theorem tick_during_inflight_starts_second_cycle_cex :
    (runEvents (WMState.activated : WMState Nat Nat) [WMEvent.tick]).inFlight = 2 ∧
    (WMState.activated : WMState Nat Nat).inFlight = 1 ∧
    (runEvents (WMState.activated : WMState Nat Nat) [WMEvent.tick]).cyclesStarted = 2 :=
  ⟨rfl, rfl, rfl⟩

/-- C5 amended: every interval tick on a mounted instance invokes
fetchWeatherData unconditionally — there is no in-flight guard, so a tick
during an in-flight cycle starts a second concurrent cycle rather than being
dropped; ticks keep firing on schedule until clearInterval. -/
theorem tick_always_starts_cycle {T U : Type} (s : WMState T U) (h : s.stopped = false) :
    (step s WMEvent.tick).inFlight = s.inFlight + 1 ∧
    (step s WMEvent.tick).cyclesStarted = s.cyclesStarted + 1 := by
  simp [step, h, startCycle]

theorem tick_always_starts_cycle_witness :
    (step (WMState.activated : WMState Nat Nat) WMEvent.tick).inFlight =
      (WMState.activated : WMState Nat Nat).inFlight + 1 ∧
    (step (WMState.activated : WMState Nat Nat) WMEvent.tick).cyclesStarted =
      (WMState.activated : WMState Nat Nat).cyclesStarted + 1 :=
  tick_always_starts_cycle _ rfl

/-- C6 counterexample: a Refresh click while the mount cycle is in flight is
ignored (the button is disabled while refreshing), and after the in-flight
cycle completes no additional cycle has started — total cycles started stays 1
with none in flight, refuting the claim that exactly one additional cycle runs
after the in-flight one completes. -/
theorem refresh_during_inflight_no_extra_cycle_cex :
    (runEvents (WMState.activated : WMState Nat Nat)
        [WMEvent.refreshClick, WMEvent.complete [] []]).cyclesStarted = 1 ∧
    (runEvents (WMState.activated : WMState Nat Nat)
        [WMEvent.refreshClick, WMEvent.complete [] []]).inFlight = 0 :=
  ⟨rfl, rfl⟩

/-- C6 amended: in WeatherMonitor a manual refresh requested while a cycle is in
flight is a no-op (the button is disabled while refreshing); no pending flag is
recorded and the completion of the in-flight cycle never starts another. -/
theorem refresh_during_inflight_ignored {T U : Type} (s : WMState T U)
    (h : s.refreshing = true) :
    step s WMEvent.refreshClick = s ∧
    (∀ (w : CycleResult T) (u : CycleResult U),
      (step s (WMEvent.complete w u)).cyclesStarted = s.cyclesStarted) := by
  constructor
  · simp [step, h]
  · intro w u
    simp only [step, completeCycle]
    split
    · rfl
    · split <;> rfl

theorem refresh_during_inflight_ignored_witness :
    step (WMState.activated : WMState Nat Nat) WMEvent.refreshClick =
      (WMState.activated : WMState Nat Nat) :=
  (refresh_during_inflight_ignored _ rfl).1

/-- C7: after the unmount cleanup runs (clearInterval and unmount), the sink
observes no further change: no tick fires, clicks are impossible, and an
in-flight invocation that later finishes has all its setState calls discarded,
so whatever sequence of events follows deactivation, the sink view is exactly
what it was at deactivation time. -/
theorem sink_frozen_after_deactivate {T U : Type} (s : WMState T U)
    (es : List (WMEvent T U)) :
    sinkView (runEvents (step s WMEvent.deactivate) es) = sinkView s := by
  have key : ∀ (evs : List (WMEvent T U)) (s0 : WMState T U), s0.stopped = true →
      sinkView (runEvents s0 evs) = sinkView s0 := by
    intro evs
    induction evs with
    | nil =>
      intro s0 _
      rfl
    | cons e rest ih =>
      intro s0 h0
      have hs := step_stopped_frozen s0 e h0
      show sinkView (runEvents (step s0 e) rest) = sinkView s0
      rw [ih _ hs.1, hs.2]
  have hstop : (step s WMEvent.deactivate).stopped = true := by simp [step]
  have hview : sinkView (step s WMEvent.deactivate) = sinkView s := by
    simp [step, sinkView]
  rw [key es _ hstop, hview]

/-- C8 counterexample: a rejected request is returned by getWeather as a
rejection, not converted into a Failure outcome — the raw transport error
escapes the fetcher to its caller, refuting the claim that no exception ever
escapes the fetcher boundary. -/
theorem fetcher_propagates_rejection_cex :
    isFulfilled (getWeather
        (Except.error ErrorKind.Timeout : Except ErrorKind (AxiosResponse Nat))) = false ∧
    getWeather (Except.error ErrorKind.Timeout : Except ErrorKind (AxiosResponse Nat)) =
      Except.error ErrorKind.Timeout :=
  ⟨rfl, rfl⟩

/-- C8 amended: the service functions perform no error handling at all: a
fulfilled response yields its data payload and a rejected request (network
failure, the 10s axios timeout, decoding) propagates to the caller unchanged;
normalization to a Failure outcome never happens at the fetcher — the polling
component try/catch absorbs the rejection instead. -/
theorem fetcher_passthrough {T : Type} (e : ErrorKind) (r : AxiosResponse T)
    (ra : AxiosResponse (List T)) :
    getWeather (Except.error e : Except ErrorKind (AxiosResponse T)) = Except.error e ∧
    getWeather (Except.ok r) = Except.ok r.data ∧
    getAlerts (Except.error e : Except ErrorKind (AxiosResponse (List T))) = Except.error e ∧
    getAlerts (Except.ok ra) = Except.ok ra.data :=
  ⟨rfl, rfl, rfl, rfl⟩

/-- C9: in each polling component the completion of any fetch cycle on a live
instance clears the loading flag — whether the cycle fulfilled or rejected —
and no later operation of the same instance ever sets loading back to true. -/
theorem loading_latch :
    (∀ (A : Type) (s : APState A) (res : Except ErrorKind (List A)),
      s.stopped = false → (fetchAlerts s res).loading = false) ∧
    (∀ (D : Type) (s : SOState D) (res : Except ErrorKind D),
      s.stopped = false → (fetchDashboardData s res).loading = false) ∧
    (∀ (T U : Type) (s : WMState T U) (w : CycleResult T) (u : CycleResult U),
      s.stopped = false → (step s (WMEvent.complete w u)).loading = false) ∧
    (∀ (A : Type) (s : APState A) (res : Except ErrorKind (List A)),
      s.loading = false → (fetchAlerts s res).loading = false) ∧
    (∀ (A : Type) (s : APState A) (g : Except ErrorKind Unit)
        (res : Except ErrorKind (List A)),
      s.loading = false → (generateTestAlerts s g res).loading = false) ∧
    (∀ (D : Type) (s : SOState D) (res : Except ErrorKind D),
      s.loading = false → (fetchDashboardData s res).loading = false) ∧
    (∀ (T U : Type) (s : WMState T U) (e : WMEvent T U),
      s.loading = false → (step s e).loading = false) := by
  refine ⟨?_, ?_, ?_, ?_, ?_, ?_, ?_⟩
  · intro A s res h
    cases res <;> simp [fetchAlerts, h]
  · intro D s res h
    cases res <;> simp [fetchDashboardData, h]
  · intro T U s w u h
    cases hc : (allSuccess w && allSuccess u) <;> simp [step, completeCycle, h, hc]
  · intro A s res h
    cases hstop : s.stopped <;> cases res <;> simp [fetchAlerts, hstop, h]
  · intro A s g res h
    cases hstop : s.stopped <;> cases g <;> cases res <;>
      simp [generateTestAlerts, fetchAlerts, hstop, h]
  · intro D s res h
    cases hstop : s.stopped <;> cases res <;> simp [fetchDashboardData, hstop, h]
  · intro T U s e h
    cases e with
    | tick => cases hstop : s.stopped <;> simp [step, startCycle, hstop, h]
    | refreshClick =>
      cases hstop : s.stopped <;> cases hr : s.refreshing <;>
        simp [step, startCycle, hstop, hr, h]
    | complete w u =>
      cases hstop : s.stopped
      · cases hc : (allSuccess w && allSuccess u) <;>
          simp [step, completeCycle, hstop, hc]
      · simp [step, completeCycle, hstop, h]
    | deactivate => simp [step, h]

theorem loading_latch_witness :
    (fetchAlerts (⟨[], true, false, false⟩ : APState Nat)
      (Except.error ErrorKind.Timeout)).loading = false :=
  loading_latch.1 Nat ⟨[], true, false, false⟩ (Except.error ErrorKind.Timeout) rfl

/-- C10: handleSubmit calls onSubmitted exactly when the submission fulfils;
on rejection onSubmitted is not called and onClose is not called either (the
form stays open); the submitting flag ends false in both cases. -/
theorem handleSubmit_spec (res : Except ErrorKind Unit) :
    (handleSubmit res).onSubmittedCalled = isFulfilled res ∧
    (handleSubmit res).onCloseCalled = false ∧
    (handleSubmit res).submitting = false := by
  cases res <;> exact ⟨rfl, rfl, rfl⟩

end Climax
